import Mathlib

/-!
Shallow embedding of the exec-harness analysis module
(crates/exec-harness/src/analysis/mod.rs).

The module runs benchmark commands either plainly (perform) or under a
valgrind LD_PRELOAD injection scheme (perform_with_valgrind), and audits
the profile folder for evidence of spawned subprocesses
(bail_if_command_spawned_subprocesses_under_valgrind).

External collaborators that are not part of the provided source
(the uri module, the ld_preload_check module, the preload_lib_file module,
the InstrumentHooks bindings) are abstracted as function parameters or
inputs; the process-level effects (spawn, wait, hook notifications) are
reified as an event trace so that ordering claims can be stated.
-/

namespace Runner

/-- A benchmark command: a display name and the argv vector. -/
structure BenchmarkCommand where
  name : String
  command : List String
deriving DecidableEq

/-- The failure cases surfaced by the analysis module. Each constructor
corresponds to one bail! or .context site in the source. -/
inductive Error where
  /-- preload_lib_file::get_preload_lib_path failed -/
  | preloadLibFailure
  /-- ld_preload_check::check_ld_preload_compatible rejected the executable -/
  | incompatibleTarget (exe : String)
  /-- the OS could not create the process (context "Failed to spawn command",
      and in plain mode the failing Command::status call) -/
  | spawnFailure
  /-- waiting on the child failed (context "Failed to execute command") -/
  | waitFailure
  /-- std::fs::read_dir on the profile folder failed -/
  | readDirFailure
  /-- reading one directory entry failed -/
  | dirEntryFailure
  /-- the subprocess-under-valgrind audit found an offending pid file -/
  | subprocessDetected
  /-- the child exited with a non-zero status -/
  | nonZeroExit (code : Int)
deriving DecidableEq

/-- Observable actions of a run, in program order. -/
inductive Event where
  /-- hooks.start_benchmark() -/
  | startBenchmark
  /-- a child process was created, with the given executable, arguments and
      environment variables set on top of the inherited environment -/
  | spawn (exe : String) (args : List String) (envOverrides : List (String × String))
  /-- hooks.stop_benchmark() -/
  | stopBenchmark
  /-- hooks.set_executed_benchmark(uri) -/
  | setExecutedBenchmark (uri : String)
  /-- ld_preload_check::check_ld_preload_compatible(exe) was consulted -/
  | checkCompat (exe : String)
  /-- bail_if_command_spawned_subprocesses_under_valgrind(pid) was invoked -/
  | auditCall (pid : Nat)
deriving DecidableEq

/-- Numeric value of a decimal digit character. -/
def charDigitVal (c : Char) : Nat := c.toNat - '0'.toNat

/-- Value of a list of decimal digit characters, most significant first. -/
def digitsVal (cs : List Char) : Nat :=
  cs.foldl (fun a c => a * 10 + charDigitVal c) 0

/-- Rust u32 string parsing (str::parse::<u32>), on the character list of the
string: an optional leading plus sign, then one or more ASCII decimal digits,
and the value must fit in 32 bits. A leading minus sign is rejected for
unsigned integers, as are empty digit strings and non-ASCII-digit
characters. -/
def parseU32 (cs : List Char) : Option Nat :=
  let ds := match cs with
    | '+' :: rest => rest
    | other => other
  if ds ≠ [] ∧ (∀ c ∈ ds, c.isDigit = true) ∧ digitsVal ds < 2 ^ 32 then
    some (digitsVal ds)
  else
    none

/-- str::strip_suffix with the literal suffix ".out": returns the stem when
the character list ends with '.', 'o', 'u', 't', and none otherwise. -/
def stripSuffixOut (cs : List Char) : Option (List Char) :=
  if cs.length ≥ 4 ∧ cs.drop (cs.length - 4) = ['.', 'o', 'u', 't'] then
    some (cs.take (cs.length - 4))
  else
    none

/-- The pid the audit extracts from a directory entry name: strip the ".out"
suffix, then parse the stem with Rust u32 parsing. This follows the source
exactly (strip_suffix(".out") then stripped.parse::<u32>()). -/
def entryPid (name : String) : Option Nat :=
  match stripSuffixOut name.data with
  | some stem => parseU32 stem
  | none => none

/-- The inner loop of the audit over the directory entries, in directory
order. An unreadable entry propagates its error; an entry whose name yields
a pid strictly greater than the benchmark pid bails immediately; every other
entry is skipped. -/
def auditEntries (pid : Nat) : List (Except Unit String) → Except Error Unit
  | [] => Except.ok ()
  | Except.error _ :: _ => Except.error Error.dirEntryFailure
  | Except.ok name :: rest =>
    match entryPid name with
    | some subprocessPid =>
      if pid < subprocessPid then Except.error Error.subprocessDetected
      else auditEntries pid rest
    | none => auditEntries pid rest

/-- bail_if_command_spawned_subprocesses_under_valgrind.
profileFolderEnv is the value of the CODSPEED_PROFILE_FOLDER environment
variable (none when unset); listing is the outcome of std::fs::read_dir on
that folder (an error, or the list of per-entry read outcomes with the entry
file names); pid is the benchmark child pid. -/
def bail_if_command_spawned_subprocesses_under_valgrind
    (profileFolderEnv : Option String)
    (listing : Except Unit (List (Except Unit String)))
    (pid : Nat) : Except Error Unit :=
  match profileFolderEnv with
  | none => Except.ok ()
  | some _ =>
    match listing with
    | Except.error _ => Except.error Error.readDirFailure
    | Except.ok entries => auditEntries pid entries

/-- The spec-side reading of a pid entry name, used only to compare the
specification wording against the code: the name must be a plain digit
string (no sign) followed by ".out", and the digit string must be parseable
as a 32-bit process id. -/
def digitsOutPidSpec (name : String) : Option Nat :=
  match stripSuffixOut name.data with
  | some stem =>
    if stem ≠ [] ∧ (∀ c ∈ stem, c.isDigit = true) ∧ digitsVal stem < 2 ^ 32 then
      some (digitsVal stem)
    else
      none
  | none => none

/-- The first argv element, the executable the process is created from
(benchmark_cmd.command[0]). -/
def cmdExe (c : BenchmarkCommand) : String := c.command.headD ""

/-- The remaining argv elements (benchmark_cmd.command[1..]). -/
def cmdArgs (c : BenchmarkCommand) : List String := c.command.tail

/-- Modelled from the spec: the name of the benchmark-URI environment
variable (constants::URI_ENV, whose definition is outside the provided
source). Only its identity matters to the claims, not its concrete text. -/
def URI_ENV : String := "CODSPEED_BENCH_URI"

/-- perform, the plain-mode executor, indexed by the position of the current
command in the run. genUri abstracts uri::generate_name_and_uri (only the
uri field is consumed); world gives, per command position, the outcome of
Command::status: none when the OS fails to create the process, some code
when the child runs and exits with that status code. Returns the run result
together with the trace of observable events. Per command the source does:
start_benchmark, spawn-and-wait (Command::status), stop_benchmark, surface a
status error, bail on non-zero exit, set_executed_benchmark(uri). -/
def performFrom (genUri : String → List String → String)
    (world : Nat → Option Int) (i : Nat) :
    List BenchmarkCommand → Except Error Unit × List Event
  | [] => (Except.ok (), [])
  | cmd :: rest =>
    let uri := genUri cmd.name cmd.command
    match world i with
    | none =>
      (Except.error Error.spawnFailure, [Event.startBenchmark, Event.stopBenchmark])
    | some code =>
      let evs := [Event.startBenchmark, Event.spawn (cmdExe cmd) (cmdArgs cmd) [],
                  Event.stopBenchmark]
      if code = 0 then
        let next := performFrom genUri world (i + 1) rest
        (next.1, evs ++ [Event.setExecutedBenchmark uri] ++ next.2)
      else
        (Except.error (Error.nonZeroExit code), evs)

/-- perform: the plain-mode executor over the whole command list. -/
def perform (genUri : String → List String → String)
    (world : Nat → Option Int) (commands : List BenchmarkCommand) :
    Except Error Unit × List Event :=
  performFrom genUri world 0 commands

/-- What the operating system does for one command position under the
valgrind executor: whether the spawn succeeds (and with which child pid),
whether the wait succeeds (and with which exit code), and the profile-folder
listing observed by the audit after the child exits. -/
structure VgBehavior where
  spawnResult : Option Nat
  waitResult : Option Int
  profileListing : Except Unit (List (Except Unit String))

/-- perform_with_valgrind, indexed by the position of the current command.
compatible abstracts ld_preload_check::check_ld_preload_compatible;
profileFolderEnv is the process-wide CODSPEED_PROFILE_FOLDER value;
preloadLibPath is the path resolved by get_preload_lib_path. Per command the
source does: compatibility check (bail on incompatible), compute the uri,
spawn with exactly LD_PRELOAD, PYTHONPERFSUPPORT=1 and URI_ENV added to the
inherited environment, wait, run the subprocess audit on the child pid, and
only then bail on a non-zero exit status. -/
def performWithValgrindFrom (genUri : String → List String → String)
    (compatible : String → Bool)
    (profileFolderEnv : Option String)
    (preloadLibPath : String)
    (world : Nat → VgBehavior) (i : Nat) :
    List BenchmarkCommand → Except Error Unit × List Event
  | [] => (Except.ok (), [])
  | cmd :: rest =>
    let exe := cmdExe cmd
    if compatible exe then
      let uri := genUri cmd.name cmd.command
      let envs := [("LD_PRELOAD", preloadLibPath), ("PYTHONPERFSUPPORT", "1"),
                   (URI_ENV, uri)]
      match (world i).spawnResult with
      | none => (Except.error Error.spawnFailure, [Event.checkCompat exe])
      | some pid =>
        let evs := [Event.checkCompat exe, Event.spawn exe (cmdArgs cmd) envs]
        match (world i).waitResult with
        | none => (Except.error Error.waitFailure, evs)
        | some code =>
          match bail_if_command_spawned_subprocesses_under_valgrind
              profileFolderEnv (world i).profileListing pid with
          | Except.error e => (Except.error e, evs ++ [Event.auditCall pid])
          | Except.ok _ =>
            if code = 0 then
              let next := performWithValgrindFrom genUri compatible
                profileFolderEnv preloadLibPath world (i + 1) rest
              (next.1, evs ++ [Event.auditCall pid] ++ next.2)
            else
              (Except.error (Error.nonZeroExit code), evs ++ [Event.auditCall pid])
    else
      (Except.error (Error.incompatibleTarget exe), [Event.checkCompat exe])

/-- perform_with_valgrind: resolve the preload library once (failing the run
before any command when it cannot be resolved), then run the commands in
order. -/
def perform_with_valgrind (genUri : String → List String → String)
    (compatible : String → Bool)
    (profileFolderEnv : Option String)
    (preloadLib : Option String)
    (world : Nat → VgBehavior) (commands : List BenchmarkCommand) :
    Except Error Unit × List Event :=
  match preloadLib with
  | none => (Except.error Error.preloadLibFailure, [])
  | some p => performWithValgrindFrom genUri compatible profileFolderEnv p world 0 commands

/-- The executables of the spawn events of a trace, in order: one entry per
process actually created. -/
def spawnExes : List Event → List String
  | [] => []
  | Event.spawn exe _ _ :: tr => exe :: spawnExes tr
  | Event.startBenchmark :: tr => spawnExes tr
  | Event.stopBenchmark :: tr => spawnExes tr
  | Event.setExecutedBenchmark _ :: tr => spawnExes tr
  | Event.checkCompat _ :: tr => spawnExes tr
  | Event.auditCall _ :: tr => spawnExes tr

theorem spawnExes_append (a b : List Event) :
    spawnExes (a ++ b) = spawnExes a ++ spawnExes b := by
  induction a with
  | nil => rfl
  | cons e tr ih => cases e <;> simp [spawnExes, ih]

end Runner


namespace Runner

/-- C5: when the profile-folder environment variable is unset, the audit
returns Ok for every benchmark pid and every directory state, because the
directory is never consulted. -/
theorem C5_env_unset_audit_always_ok
    (listing : Except Unit (List (Except Unit String))) (pid : Nat) :
    bail_if_command_spawned_subprocesses_under_valgrind none listing pid
      = Except.ok () := rfl

/-- C9: when the profile-folder environment variable is set but the
directory cannot be read, or one of its entries cannot be read, the audit
returns an error instead of treating the directory as empty. -/
theorem C9_unreadable_profile_folder_is_error (folder : String) (pid : Nat)
    (entries : List (Except Unit String)) (h : Except.error () ∈ entries) :
    bail_if_command_spawned_subprocesses_under_valgrind
        (some folder) (Except.error ()) pid = Except.error Error.readDirFailure
    ∧ bail_if_command_spawned_subprocesses_under_valgrind
        (some folder) (Except.ok entries) pid ≠ Except.ok () := by
  refine ⟨rfl, ?_⟩
  show auditEntries pid entries ≠ Except.ok ()
  induction entries with
  | nil => cases h
  | cons e rest ih =>
    cases e with
    | error u => simp [auditEntries]
    | ok name =>
      have hrest : Except.error () ∈ rest := by
        rcases List.mem_cons.mp h with h1 | h2
        · cases h1
        · exact h2
      cases hp : entryPid name with
      | none => simpa [auditEntries, hp] using ih hrest
      | some p =>
        by_cases hlt : pid < p
        · simp [auditEntries, hp, hlt]
        · simpa [auditEntries, hp, hlt] using ih hrest

/-- Closed witness for C9 at a concrete input. -/
theorem C9_unreadable_profile_folder_is_error_witness :
    (Except.error () ∈ ([Except.error ()] : List (Except Unit String)))
    ∧ (bail_if_command_spawned_subprocesses_under_valgrind
          (some "profile") (Except.error ()) 7 = Except.error Error.readDirFailure
       ∧ bail_if_command_spawned_subprocesses_under_valgrind
          (some "profile") (Except.ok [Except.error ()]) 7 ≠ Except.ok ()) :=
  ⟨by simp, C9_unreadable_profile_folder_is_error "profile" 7 [Except.error ()] (by simp)⟩

/-- C10: in plain mode, when the OS fails to create the process, the stop
notification is still issued: the run fails with the spawn failure after
both the start and the stop notifications were emitted (and nothing else). -/
theorem C10_stop_notified_even_on_spawn_failure
    (genUri : String → List String → String) (world : Nat → Option Int)
    (i : Nat) (cmd : BenchmarkCommand) (rest : List BenchmarkCommand)
    (h : world i = none) :
    performFrom genUri world i (cmd :: rest)
      = (Except.error Error.spawnFailure,
         [Event.startBenchmark, Event.stopBenchmark]) := by
  simp [performFrom, h]

/-- Closed witness for C10 at a concrete input. -/
theorem C10_stop_notified_even_on_spawn_failure_witness :
    ((fun _ : Nat => (none : Option Int)) 0 = none)
    ∧ performFrom (fun _ _ => "uri") (fun _ => none) 0
        [BenchmarkCommand.mk "bench" ["prog", "arg"]]
      = (Except.error Error.spawnFailure,
         [Event.startBenchmark, Event.stopBenchmark]) :=
  ⟨rfl, C10_stop_notified_even_on_spawn_failure (fun _ _ => "uri") (fun _ => none) 0
    (BenchmarkCommand.mk "bench" ["prog", "arg"]) [] rfl⟩

/-- C8: in plain mode the per-command order is start notification, spawn,
wait, stop notification; the benchmark is recorded via its uri only when the
exit status is zero, and a non-zero exit aborts the run before the uri is
recorded. -/
theorem C8_plain_mode_order (genUri : String → List String → String)
    (world : Nat → Option Int) (i : Nat) (cmd : BenchmarkCommand)
    (rest : List BenchmarkCommand) (code : Int)
    (h : world i = some code) :
    (code = 0 → performFrom genUri world i (cmd :: rest)
        = ((performFrom genUri world (i + 1) rest).1,
           [Event.startBenchmark, Event.spawn (cmdExe cmd) (cmdArgs cmd) [],
            Event.stopBenchmark,
            Event.setExecutedBenchmark (genUri cmd.name cmd.command)]
           ++ (performFrom genUri world (i + 1) rest).2))
    ∧ (code ≠ 0 → performFrom genUri world i (cmd :: rest)
        = (Except.error (Error.nonZeroExit code),
           [Event.startBenchmark, Event.spawn (cmdExe cmd) (cmdArgs cmd) [],
            Event.stopBenchmark])) := by
  constructor
  · intro h0
    subst h0
    simp [performFrom, h]
  · intro hne
    simp [performFrom, h, hne]

/-- Closed witness for C8 at a concrete input. -/
theorem C8_plain_mode_order_witness :
    ((fun _ : Nat => (some 0 : Option Int)) 0 = some 0)
    ∧ ((0 : Int) = 0 → performFrom (fun _ _ => "uri") (fun _ => some 0) 0
          [BenchmarkCommand.mk "bench" ["prog"]]
        = ((performFrom (fun _ _ => "uri") (fun _ => some 0) 1 []).1,
           [Event.startBenchmark,
            Event.spawn (cmdExe (BenchmarkCommand.mk "bench" ["prog"]))
              (cmdArgs (BenchmarkCommand.mk "bench" ["prog"])) [],
            Event.stopBenchmark,
            Event.setExecutedBenchmark "uri"]
           ++ (performFrom (fun _ _ => "uri") (fun _ => some 0) 1 []).2))
    ∧ ((0 : Int) ≠ 0 → performFrom (fun _ _ => "uri") (fun _ => some 0) 0
          [BenchmarkCommand.mk "bench" ["prog"]]
        = (Except.error (Error.nonZeroExit 0),
           [Event.startBenchmark,
            Event.spawn (cmdExe (BenchmarkCommand.mk "bench" ["prog"]))
              (cmdArgs (BenchmarkCommand.mk "bench" ["prog"])) [],
            Event.stopBenchmark])) :=
  ⟨rfl,
   (C8_plain_mode_order (fun _ _ => "uri") (fun _ => some 0) 0
     (BenchmarkCommand.mk "bench" ["prog"]) [] 0 rfl).1,
   (C8_plain_mode_order (fun _ _ => "uri") (fun _ => some 0) 0
     (BenchmarkCommand.mk "bench" ["prog"]) [] 0 rfl).2⟩

end Runner

namespace Runner

/-- C1 counterexample: the claim as stated is false. In the directory
containing only the entry named "+150.out" there is no entry of the form
digits-then-".out" (the spec-side reading yields no pid for it), so the
claim requires the audit to return Ok for benchmark pid 100; but the code
parses "+150" with Rust u32 parsing, which accepts a leading plus sign, and
fails with subprocess detection. -/
theorem C1_audit_counterexample :
    (∀ name ∈ [("+150.out" : String)], ∀ p : Nat,
        digitsOutPidSpec name = some p → p ≤ 100)
    ∧ bail_if_command_spawned_subprocesses_under_valgrind
        (some "profile") (Except.ok [Except.ok "+150.out"]) 100
      = Except.error Error.subprocessDetected := by
  constructor
  · intro name hn p hp
    have hname : name = "+150.out" := by simpa using hn
    subst hname
    have h0 : digitsOutPidSpec "+150.out" = none := by decide
    rw [h0] at hp
    cases hp
  · rfl

/-- C1 (amended): over a configured profile folder whose entries are all
readable, the audit returns Ok exactly when every entry whose name yields a
pid under the code's parsing (strip the ".out" suffix, then Rust u32
parsing, which also accepts an optional leading plus sign before the digits)
has a pid at most the benchmark pid; equivalently it fails exactly when some
entry yields a pid strictly greater than the benchmark pid. -/
theorem C1_amended_audit_ok_iff (folder : String) (pid : Nat)
    (names : List String) :
    bail_if_command_spawned_subprocesses_under_valgrind
        (some folder) (Except.ok (names.map Except.ok)) pid = Except.ok ()
    ↔ ∀ name ∈ names, ∀ p : Nat, entryPid name = some p → p ≤ pid := by
  show auditEntries pid (names.map Except.ok) = Except.ok () ↔ _
  induction names with
  | nil => simp [auditEntries]
  | cons name rest ih =>
    cases hp : entryPid name with
    | none =>
      simpa [auditEntries, hp, List.forall_mem_cons] using ih
    | some p =>
      by_cases hlt : pid < p
      · rw [List.map_cons,
            show auditEntries pid (Except.ok name :: rest.map Except.ok)
              = Except.error Error.subprocessDetected from by
                simp [auditEntries, hp, hlt]]
        constructor
        · intro hco
          cases hco
        · intro hall
          have := hall name (List.mem_cons_self name rest) p hp
          omega
      · have hle : p ≤ pid := by omega
        simpa [auditEntries, hp, hlt, List.forall_mem_cons, hle] using ih

/-- C7 counterexample: the claim as stated is false. The entry name
"+42.out" does not consist of a digit string followed by ".out" (the
spec-side reading yields no pid), so per the claim it can never cause the
audit to fail; but with benchmark pid 7 the code parses "+42" (Rust u32
parsing accepts a leading plus sign) and fails with subprocess detection. -/
theorem C7_nonmatching_entry_counterexample :
    digitsOutPidSpec "+42.out" = none
    ∧ bail_if_command_spawned_subprocesses_under_valgrind
        (some "folder") (Except.ok [Except.ok "+42.out"]) 7
      = Except.error Error.subprocessDetected :=
  ⟨by decide, rfl⟩

/-- C7 (amended): an entry whose name yields no pid under the code's
parsing (no ".out" suffix, or a stem that Rust u32 parsing rejects: empty,
non-digit characters beyond an optional leading plus sign, or a value not
fitting in 32 bits) is skipped by the audit: dropping it does not change the
audit's result, so it can never cause the audit to fail. -/
theorem C7_amended_unparsed_entries_ignored (folder : String) (pid : Nat)
    (name : String) (rest : List (Except Unit String))
    (h : entryPid name = none) :
    bail_if_command_spawned_subprocesses_under_valgrind
        (some folder) (Except.ok (Except.ok name :: rest)) pid
      = bail_if_command_spawned_subprocesses_under_valgrind
        (some folder) (Except.ok rest) pid := by
  show auditEntries pid (Except.ok name :: rest) = auditEntries pid rest
  simp [auditEntries, h]

/-- Closed witness for the amended C7 at a concrete input. -/
theorem C7_amended_unparsed_entries_ignored_witness :
    entryPid "readme.txt" = none
    ∧ bail_if_command_spawned_subprocesses_under_valgrind
        (some "folder") (Except.ok [Except.ok "readme.txt", Except.ok "5.out"]) 9
      = bail_if_command_spawned_subprocesses_under_valgrind
        (some "folder") (Except.ok [Except.ok "5.out"]) 9 :=
  ⟨by decide, C7_amended_unparsed_entries_ignored "folder" 9 "readme.txt"
    [Except.ok "5.out"] (by decide)⟩

end Runner

namespace Runner

/-- Every spawn event of the valgrind executor comes from a command that
passed the compatibility check, and carries exactly the three environment
overrides the source sets: LD_PRELOAD, PYTHONPERFSUPPORT=1 and the
benchmark-URI variable. -/
theorem vg_spawn_event_shape (genUri : String → List String → String)
    (compatible : String → Bool) (env : Option String) (lib : String)
    (world : Nat → VgBehavior) :
    ∀ (cmds : List BenchmarkCommand) (i : Nat) (exe : String)
      (args : List String) (envs : List (String × String)),
      Event.spawn exe args envs
        ∈ (performWithValgrindFrom genUri compatible env lib world i cmds).2
      → compatible exe = true
        ∧ ∃ u, envs = [("LD_PRELOAD", lib), ("PYTHONPERFSUPPORT", "1"),
                       (URI_ENV, u)] := by
  intro cmds
  induction cmds with
  | nil =>
    intro i exe args envs h
    simp [performWithValgrindFrom] at h
  | cons cmd rest ih =>
    intro i exe args envs h
    by_cases hc : compatible (cmdExe cmd) = true
    · cases hs : (world i).spawnResult with
      | none =>
        simp [performWithValgrindFrom, hc, hs] at h
      | some pid =>
        cases hw : (world i).waitResult with
        | none =>
          simp [performWithValgrindFrom, hc, hs, hw] at h
          obtain ⟨he, -, hv⟩ := h
          subst he
          exact ⟨hc, genUri cmd.name cmd.command, hv⟩
        | some code =>
          cases ha : bail_if_command_spawned_subprocesses_under_valgrind
              env (world i).profileListing pid with
          | error e =>
            simp [performWithValgrindFrom, hc, hs, hw, ha] at h
            obtain ⟨he, -, hv⟩ := h
            subst he
            exact ⟨hc, genUri cmd.name cmd.command, hv⟩
          | ok u =>
            by_cases h0 : code = 0
            · subst h0
              simp [performWithValgrindFrom, hc, hs, hw, ha] at h
              rcases h with ⟨he, -, hv⟩ | hmem
              · subst he
                exact ⟨hc, genUri cmd.name cmd.command, hv⟩
              · exact ih (i + 1) exe args envs hmem
            · simp [performWithValgrindFrom, hc, hs, hw, ha, h0] at h
              obtain ⟨he, -, hv⟩ := h
              subst he
              exact ⟨hc, genUri cmd.name cmd.command, hv⟩
    · simp [performWithValgrindFrom, hc] at h

end Runner

namespace Runner

/-- C3: in injected mode, a command whose executable the compatibility
check rejects never has a process created for it: processing that command
aborts with the incompatibility error immediately after the check, with no
spawn event, and more generally every spawn event of any injected run comes
from an executable the check accepted (the check runs strictly before the
spawn). -/
theorem C3_incompatible_target_never_spawned
    (genUri : String → List String → String) (compatible : String → Bool)
    (env : Option String) (lib : String) (world : Nat → VgBehavior)
    (i : Nat) (cmd : BenchmarkCommand) (rest cmds : List BenchmarkCommand)
    (hinc : compatible (cmdExe cmd) = false) :
    performWithValgrindFrom genUri compatible env lib world i (cmd :: rest)
      = (Except.error (Error.incompatibleTarget (cmdExe cmd)),
         [Event.checkCompat (cmdExe cmd)])
    ∧ (∀ (exe : String) (args : List String) (envs : List (String × String)),
        Event.spawn exe args envs
          ∈ (perform_with_valgrind genUri compatible env (some lib) world cmds).2
        → compatible exe = true) := by
  constructor
  · simp [performWithValgrindFrom, hinc]
  · intro exe args envs h
    have h' : Event.spawn exe args envs
        ∈ (performWithValgrindFrom genUri compatible env lib world 0 cmds).2 := h
    exact (vg_spawn_event_shape genUri compatible env lib world cmds 0 exe args envs h').1

/-- Closed witness for C3 at a concrete input. -/
theorem C3_incompatible_target_never_spawned_witness :
    ((fun _ : String => false) (cmdExe (BenchmarkCommand.mk "bench" ["static-bin"])) = false)
    ∧ (performWithValgrindFrom (fun _ _ => "uri") (fun _ => false) (some "folder") "lib.so"
          (fun _ => VgBehavior.mk (some 10) (some 0) (Except.ok [])) 0
          [BenchmarkCommand.mk "bench" ["static-bin"]]
        = (Except.error (Error.incompatibleTarget
             (cmdExe (BenchmarkCommand.mk "bench" ["static-bin"]))),
           [Event.checkCompat (cmdExe (BenchmarkCommand.mk "bench" ["static-bin"]))])
       ∧ (∀ (exe : String) (args : List String) (envs : List (String × String)),
           Event.spawn exe args envs
             ∈ (perform_with_valgrind (fun _ _ => "uri") (fun _ => false) (some "folder")
                  (some "lib.so") (fun _ => VgBehavior.mk (some 10) (some 0) (Except.ok []))
                  [BenchmarkCommand.mk "bench" ["static-bin"]]).2
           → (fun _ : String => false) exe = true)) :=
  ⟨rfl, C3_incompatible_target_never_spawned (fun _ _ => "uri") (fun _ => false)
    (some "folder") "lib.so" (fun _ => VgBehavior.mk (some 10) (some 0) (Except.ok []))
    0 (BenchmarkCommand.mk "bench" ["static-bin"]) []
    [BenchmarkCommand.mk "bench" ["static-bin"]] rfl⟩

/-- C6: every process the injected executor creates is spawned with exactly
three environment variables on top of the inherited environment: LD_PRELOAD
(the preload library path), PYTHONPERFSUPPORT set to 1, and the
benchmark-URI variable. The parent environment is untouched by construction
of the embedding: the executor only reads its environment inputs and never
produces an environment, so the profile-folder variable it consults is the
same immutable input across the whole run. -/
theorem C6_exactly_three_child_env_overrides
    (genUri : String → List String → String) (compatible : String → Bool)
    (env : Option String) (lib : String) (world : Nat → VgBehavior)
    (cmds : List BenchmarkCommand) (exe : String) (args : List String)
    (envs : List (String × String))
    (h : Event.spawn exe args envs
        ∈ (perform_with_valgrind genUri compatible env (some lib) world cmds).2) :
    ∃ u, envs = [("LD_PRELOAD", lib), ("PYTHONPERFSUPPORT", "1"), (URI_ENV, u)]
      ∧ envs.length = 3 := by
  have h' : Event.spawn exe args envs
      ∈ (performWithValgrindFrom genUri compatible env lib world 0 cmds).2 := h
  obtain ⟨-, u, hu⟩ :=
    vg_spawn_event_shape genUri compatible env lib world cmds 0 exe args envs h'
  exact ⟨u, hu, by rw [hu]; rfl⟩

/-- Closed witness for C6 at a concrete input. -/
theorem C6_exactly_three_child_env_overrides_witness :
    (Event.spawn "prog" ["arg"]
        [("LD_PRELOAD", "lib.so"), ("PYTHONPERFSUPPORT", "1"), (URI_ENV, "uri")]
      ∈ (perform_with_valgrind (fun _ _ => "uri") (fun _ => true) (some "folder")
           (some "lib.so") (fun _ => VgBehavior.mk (some 10) (some 0) (Except.ok []))
           [BenchmarkCommand.mk "bench" ["prog", "arg"]]).2)
    ∧ ∃ u, [("LD_PRELOAD", "lib.so"), ("PYTHONPERFSUPPORT", "1"), (URI_ENV, "uri")]
        = [("LD_PRELOAD", "lib.so"), ("PYTHONPERFSUPPORT", "1"), (URI_ENV, u)]
      ∧ ([("LD_PRELOAD", "lib.so"), ("PYTHONPERFSUPPORT", "1"),
          (URI_ENV, ("uri" : String))] : List (String × String)).length = 3 :=
  ⟨by simp [perform_with_valgrind, performWithValgrindFrom, cmdExe, cmdArgs,
        bail_if_command_spawned_subprocesses_under_valgrind, auditEntries],
   C6_exactly_three_child_env_overrides (fun _ _ => "uri") (fun _ => true)
    (some "folder") "lib.so" (fun _ => VgBehavior.mk (some 10) (some 0) (Except.ok []))
    [BenchmarkCommand.mk "bench" ["prog", "arg"]] "prog" ["arg"]
    [("LD_PRELOAD", "lib.so"), ("PYTHONPERFSUPPORT", "1"), (URI_ENV, "uri")]
    (by simp [perform_with_valgrind, performWithValgrindFrom, cmdExe, cmdArgs,
        bail_if_command_spawned_subprocesses_under_valgrind, auditEntries])⟩

end Runner

namespace Runner

/-- C2: in injected mode, once the child has been spawned and waited for,
the subprocess audit runs before the exit status is evaluated: when the
audit detects a subprocess, the run fails with subprocessDetected even if
the child exited non-zero (the trace shows the audit invocation after the
spawn), and when the audit succeeds a non-zero exit is a hard failure that
aborts the run. -/
theorem C2_audit_runs_before_exit_status
    (genUri : String → List String → String) (compatible : String → Bool)
    (env : Option String) (lib : String) (world : Nat → VgBehavior)
    (i : Nat) (cmd : BenchmarkCommand) (rest : List BenchmarkCommand)
    (pid : Nat) (code : Int)
    (hc : compatible (cmdExe cmd) = true)
    (hs : (world i).spawnResult = some pid)
    (hw : (world i).waitResult = some code) :
    (bail_if_command_spawned_subprocesses_under_valgrind
        env (world i).profileListing pid = Except.error Error.subprocessDetected →
      performWithValgrindFrom genUri compatible env lib world i (cmd :: rest)
        = (Except.error Error.subprocessDetected,
           [Event.checkCompat (cmdExe cmd),
            Event.spawn (cmdExe cmd) (cmdArgs cmd)
              [("LD_PRELOAD", lib), ("PYTHONPERFSUPPORT", "1"),
               (URI_ENV, genUri cmd.name cmd.command)],
            Event.auditCall pid]))
    ∧ (bail_if_command_spawned_subprocesses_under_valgrind
        env (world i).profileListing pid = Except.ok () → code ≠ 0 →
      performWithValgrindFrom genUri compatible env lib world i (cmd :: rest)
        = (Except.error (Error.nonZeroExit code),
           [Event.checkCompat (cmdExe cmd),
            Event.spawn (cmdExe cmd) (cmdArgs cmd)
              [("LD_PRELOAD", lib), ("PYTHONPERFSUPPORT", "1"),
               (URI_ENV, genUri cmd.name cmd.command)],
            Event.auditCall pid])) := by
  constructor
  · intro ha
    simp [performWithValgrindFrom, hc, hs, hw, ha]
  · intro ha hne
    simp [performWithValgrindFrom, hc, hs, hw, ha, hne]

/-- Closed witness for C2 at a concrete input: the child exits with status 1
and the profile folder contains 150.out while the benchmark pid is 100, so
the audit error wins over the non-zero exit. -/
theorem C2_audit_runs_before_exit_status_witness :
    ((fun _ : String => true) (cmdExe (BenchmarkCommand.mk "bench" ["prog"])) = true)
    ∧ ((fun _ : Nat => VgBehavior.mk (some 100) (some 1)
          (Except.ok [Except.ok "150.out"])) 0).spawnResult = some 100
    ∧ ((fun _ : Nat => VgBehavior.mk (some 100) (some 1)
          (Except.ok [Except.ok "150.out"])) 0).waitResult = some 1
    ∧ (bail_if_command_spawned_subprocesses_under_valgrind (some "folder")
          ((fun _ : Nat => VgBehavior.mk (some 100) (some 1)
            (Except.ok [Except.ok "150.out"])) 0).profileListing 100
        = Except.error Error.subprocessDetected →
       performWithValgrindFrom (fun _ _ => "uri") (fun _ => true) (some "folder") "lib.so"
          (fun _ => VgBehavior.mk (some 100) (some 1) (Except.ok [Except.ok "150.out"]))
          0 [BenchmarkCommand.mk "bench" ["prog"]]
        = (Except.error Error.subprocessDetected,
           [Event.checkCompat (cmdExe (BenchmarkCommand.mk "bench" ["prog"])),
            Event.spawn (cmdExe (BenchmarkCommand.mk "bench" ["prog"]))
              (cmdArgs (BenchmarkCommand.mk "bench" ["prog"]))
              [("LD_PRELOAD", "lib.so"), ("PYTHONPERFSUPPORT", "1"), (URI_ENV, "uri")],
            Event.auditCall 100])) :=
  ⟨rfl, rfl, rfl,
   (C2_audit_runs_before_exit_status (fun _ _ => "uri") (fun _ => true) (some "folder")
     "lib.so" (fun _ => VgBehavior.mk (some 100) (some 1) (Except.ok [Except.ok "150.out"]))
     0 (BenchmarkCommand.mk "bench" ["prog"]) [] 100 1 rfl rfl rfl).1⟩

end Runner

namespace Runner

/-- The processes created by a plain-mode run are exactly the executables of
an initial segment of the command list, in order. -/
theorem plain_spawnExes_take (genUri : String → List String → String)
    (world : Nat → Option Int) :
    ∀ (cmds : List BenchmarkCommand) (i : Nat),
      ∃ k, spawnExes (performFrom genUri world i cmds).2
        = (cmds.map cmdExe).take k := by
  intro cmds
  induction cmds with
  | nil => intro i; exact ⟨0, rfl⟩
  | cons cmd rest ih =>
    intro i
    cases hs : world i with
    | none => exact ⟨0, by simp [performFrom, hs, spawnExes]⟩
    | some code =>
      by_cases h0 : code = 0
      · obtain ⟨k, hk⟩ := ih (i + 1)
        subst h0
        exact ⟨k + 1, by simp [performFrom, hs, spawnExes, hk]⟩
      · exact ⟨1, by simp [performFrom, hs, h0, spawnExes]⟩

/-- The processes created by an injected-mode run are exactly the
executables of an initial segment of the command list, in order. -/
theorem vg_spawnExes_take (genUri : String → List String → String)
    (compatible : String → Bool) (env : Option String) (lib : String)
    (world : Nat → VgBehavior) :
    ∀ (cmds : List BenchmarkCommand) (i : Nat),
      ∃ k, spawnExes (performWithValgrindFrom genUri compatible env lib world i cmds).2
        = (cmds.map cmdExe).take k := by
  intro cmds
  induction cmds with
  | nil => intro i; exact ⟨0, rfl⟩
  | cons cmd rest ih =>
    intro i
    by_cases hc : compatible (cmdExe cmd) = true
    · cases hs : (world i).spawnResult with
      | none => exact ⟨0, by simp [performWithValgrindFrom, hc, hs, spawnExes]⟩
      | some pid =>
        cases hw : (world i).waitResult with
        | none => exact ⟨1, by simp [performWithValgrindFrom, hc, hs, hw, spawnExes]⟩
        | some code =>
          cases ha : bail_if_command_spawned_subprocesses_under_valgrind
              env (world i).profileListing pid with
          | error e =>
            exact ⟨1, by simp [performWithValgrindFrom, hc, hs, hw, ha, spawnExes]⟩
          | ok u =>
            by_cases h0 : code = 0
            · obtain ⟨k, hk⟩ := ih (i + 1)
              subst h0
              exact ⟨k + 1, by simp [performWithValgrindFrom, hc, hs, hw, ha, spawnExes, hk]⟩
            · exact ⟨1, by simp [performWithValgrindFrom, hc, hs, hw, ha, h0, spawnExes]⟩
    · exact ⟨0, by simp [performWithValgrindFrom, hc, spawnExes]⟩

/-- A plain-mode run whose current command fails (spawn failure or non-zero
exit) does not succeed and creates at most the one process of that command:
no later command is spawned. -/
theorem plain_head_failure_aborts (genUri : String → List String → String)
    (world : Nat → Option Int) (i : Nat) (A : BenchmarkCommand)
    (rest2 : List BenchmarkCommand)
    (h : world i = none ∨ ∃ c, world i = some c ∧ c ≠ 0) :
    (performFrom genUri world i (A :: rest2)).1 ≠ Except.ok ()
    ∧ (spawnExes (performFrom genUri world i (A :: rest2)).2).length ≤ 1 := by
  rcases h with hn | ⟨c, hc, hne⟩
  · exact ⟨by simp [performFrom, hn], by simp [performFrom, hn, spawnExes]⟩
  · exact ⟨by simp [performFrom, hc, hne], by simp [performFrom, hc, hne, spawnExes]⟩

/-- An injected-mode run whose current command fails (incompatibility, spawn
failure, wait failure, audit failure, or non-zero exit) does not succeed and
creates at most the one process of that command: no later command is
spawned. -/
theorem vg_head_failure_aborts (genUri : String → List String → String)
    (compatible : String → Bool) (env : Option String) (lib : String)
    (world : Nat → VgBehavior) (i : Nat) (A : BenchmarkCommand)
    (rest2 : List BenchmarkCommand)
    (h : compatible (cmdExe A) = false
      ∨ (world i).spawnResult = none
      ∨ (world i).waitResult = none
      ∨ (∃ pid, (world i).spawnResult = some pid ∧
          bail_if_command_spawned_subprocesses_under_valgrind
            env (world i).profileListing pid ≠ Except.ok ())
      ∨ (∃ c, (world i).waitResult = some c ∧ c ≠ 0)) :
    (performWithValgrindFrom genUri compatible env lib world i (A :: rest2)).1
      ≠ Except.ok ()
    ∧ (spawnExes (performWithValgrindFrom genUri compatible env lib world i
        (A :: rest2)).2).length ≤ 1 := by
  by_cases hc : compatible (cmdExe A) = true
  · cases hs : (world i).spawnResult with
    | none =>
      exact ⟨by simp [performWithValgrindFrom, hc, hs],
             by simp [performWithValgrindFrom, hc, hs, spawnExes]⟩
    | some pid =>
      cases hw : (world i).waitResult with
      | none =>
        exact ⟨by simp [performWithValgrindFrom, hc, hs, hw],
               by simp [performWithValgrindFrom, hc, hs, hw, spawnExes]⟩
      | some code =>
        cases ha : bail_if_command_spawned_subprocesses_under_valgrind
            env (world i).profileListing pid with
        | error e =>
          exact ⟨by simp [performWithValgrindFrom, hc, hs, hw, ha],
                 by simp [performWithValgrindFrom, hc, hs, hw, ha, spawnExes]⟩
        | ok u =>
          have hne : code ≠ 0 := by
            rcases h with h1 | h2 | h3 | ⟨pid2, hp, hba⟩ | ⟨c, hcc, hcne⟩
            · rw [hc] at h1; exact Bool.noConfusion h1
            · rw [hs] at h2; exact Option.noConfusion h2
            · rw [hw] at h3; exact Option.noConfusion h3
            · rw [hs] at hp
              injection hp with hpe
              subst hpe
              cases u
              exact absurd ha hba
            · rw [hw] at hcc
              injection hcc with hce
              subst hce
              exact hcne
          exact ⟨by simp [performWithValgrindFrom, hc, hs, hw, ha, hne],
                 by simp [performWithValgrindFrom, hc, hs, hw, ha, hne, spawnExes]⟩
  · have hcf : compatible (cmdExe A) = false := by
      cases hcc : compatible (cmdExe A)
      · rfl
      · exact absurd hcc hc
    exact ⟨by simp [performWithValgrindFrom, hcf],
           by simp [performWithValgrindFrom, hcf, spawnExes]⟩

end Runner

namespace Runner

/-- C4: in both modes the commands run strictly sequentially in the order
given: the processes created are always the executables of an initial
segment of the command list, in order; and when the first command of a run
fails (spawn failure, non-zero exit, incompatibility, wait failure or
detected subprocess), the run does not succeed and at most that one process
is ever created, so no later command is spawned. -/
theorem C4_sequential_and_failure_aborts
    (genUri vgenUri : String → List String → String)
    (world : Nat → Option Int)
    (compatible : String → Bool) (env : Option String) (lib : String)
    (vworld : Nat → VgBehavior)
    (cmds vcmds : List BenchmarkCommand)
    (A B : BenchmarkCommand) (rest vrest : List BenchmarkCommand)
    (hA : world 0 = none ∨ ∃ c, world 0 = some c ∧ c ≠ 0)
    (hvA : compatible (cmdExe A) = false
      ∨ (vworld 0).spawnResult = none
      ∨ (vworld 0).waitResult = none
      ∨ (∃ pid, (vworld 0).spawnResult = some pid ∧
          bail_if_command_spawned_subprocesses_under_valgrind
            env (vworld 0).profileListing pid ≠ Except.ok ())
      ∨ (∃ c, (vworld 0).waitResult = some c ∧ c ≠ 0)) :
    (∃ k, spawnExes (perform genUri world cmds).2 = (cmds.map cmdExe).take k)
    ∧ (∃ k, spawnExes (perform_with_valgrind vgenUri compatible env (some lib)
          vworld vcmds).2 = (vcmds.map cmdExe).take k)
    ∧ ((perform genUri world (A :: B :: rest)).1 ≠ Except.ok ()
       ∧ (spawnExes (perform genUri world (A :: B :: rest)).2).length ≤ 1)
    ∧ ((perform_with_valgrind vgenUri compatible env (some lib) vworld
          (A :: B :: vrest)).1 ≠ Except.ok ()
       ∧ (spawnExes (perform_with_valgrind vgenUri compatible env (some lib) vworld
          (A :: B :: vrest)).2).length ≤ 1) :=
  ⟨plain_spawnExes_take genUri world cmds 0,
   vg_spawnExes_take vgenUri compatible env lib vworld vcmds 0,
   plain_head_failure_aborts genUri world 0 A (B :: rest) hA,
   vg_head_failure_aborts vgenUri compatible env lib vworld 0 A (B :: vrest) hvA⟩

/-- Closed witness for C4 at a concrete input: the first command exits with
status 1 in plain mode and is rejected by the compatibility check in
injected mode; the second command is never spawned in either mode. -/
theorem C4_sequential_and_failure_aborts_witness :
    ((fun _ : Nat => (some 1 : Option Int)) 0 = none
      ∨ ∃ c, (fun _ : Nat => (some 1 : Option Int)) 0 = some c ∧ c ≠ 0)
    ∧ ((fun _ : String => false) (cmdExe (BenchmarkCommand.mk "a" ["pa"])) = false
      ∨ ((fun _ : Nat => VgBehavior.mk none none (Except.error ())) 0).spawnResult = none
      ∨ ((fun _ : Nat => VgBehavior.mk none none (Except.error ())) 0).waitResult = none
      ∨ (∃ pid, ((fun _ : Nat => VgBehavior.mk none none (Except.error ())) 0).spawnResult
            = some pid ∧
          bail_if_command_spawned_subprocesses_under_valgrind (some "folder")
            ((fun _ : Nat => VgBehavior.mk none none (Except.error ())) 0).profileListing pid
            ≠ Except.ok ())
      ∨ (∃ c, ((fun _ : Nat => VgBehavior.mk none none (Except.error ())) 0).waitResult
            = some c ∧ c ≠ 0))
    ∧ ((∃ k, spawnExes (perform (fun _ _ => "u") (fun _ => some 1)
            [BenchmarkCommand.mk "a" ["pa"]]).2
          = ([BenchmarkCommand.mk "a" ["pa"]].map cmdExe).take k)
       ∧ (∃ k, spawnExes (perform_with_valgrind (fun _ _ => "u") (fun _ => false)
            (some "folder") (some "lib.so") (fun _ => VgBehavior.mk none none (Except.error ()))
            [BenchmarkCommand.mk "a" ["pa"]]).2
          = ([BenchmarkCommand.mk "a" ["pa"]].map cmdExe).take k)
       ∧ ((perform (fun _ _ => "u") (fun _ => some 1)
            (BenchmarkCommand.mk "a" ["pa"] :: BenchmarkCommand.mk "b" ["pb"] :: [])).1
            ≠ Except.ok ()
          ∧ (spawnExes (perform (fun _ _ => "u") (fun _ => some 1)
            (BenchmarkCommand.mk "a" ["pa"] :: BenchmarkCommand.mk "b" ["pb"] :: [])).2).length
            ≤ 1)
       ∧ ((perform_with_valgrind (fun _ _ => "u") (fun _ => false) (some "folder")
            (some "lib.so") (fun _ => VgBehavior.mk none none (Except.error ()))
            (BenchmarkCommand.mk "a" ["pa"] :: BenchmarkCommand.mk "b" ["pb"] :: [])).1
            ≠ Except.ok ()
          ∧ (spawnExes (perform_with_valgrind (fun _ _ => "u") (fun _ => false)
            (some "folder") (some "lib.so") (fun _ => VgBehavior.mk none none (Except.error ()))
            (BenchmarkCommand.mk "a" ["pa"] :: BenchmarkCommand.mk "b" ["pb"] :: [])).2).length
            ≤ 1)) :=
  ⟨Or.inr ⟨1, rfl, by decide⟩,
   Or.inl rfl,
   C4_sequential_and_failure_aborts (fun _ _ => "u") (fun _ _ => "u") (fun _ => some 1)
    (fun _ => false) (some "folder") "lib.so"
    (fun _ => VgBehavior.mk none none (Except.error ()))
    [BenchmarkCommand.mk "a" ["pa"]] [BenchmarkCommand.mk "a" ["pa"]]
    (BenchmarkCommand.mk "a" ["pa"]) (BenchmarkCommand.mk "b" ["pb"]) [] []
    (Or.inr ⟨1, rfl, by decide⟩)
    (Or.inl rfl)⟩

end Runner

namespace Runner

/-- Closed witness for the amended C1 at concrete inputs: the directory
containing only 100.out passes for benchmark pid 100, and the directory
containing 100.out and 150.out fails for benchmark pid 100. -/
theorem C1_amended_audit_ok_iff_witness :
    bail_if_command_spawned_subprocesses_under_valgrind
        (some "profile") (Except.ok ([("100.out" : String)].map Except.ok)) 100
      = Except.ok ()
    ∧ bail_if_command_spawned_subprocesses_under_valgrind
        (some "profile") (Except.ok ([("100.out" : String), "150.out"].map Except.ok)) 100
      ≠ Except.ok () :=
  ⟨(C1_amended_audit_ok_iff "profile" 100 ["100.out"]).mpr (by
      intro name hn p hp
      have hname : name = "100.out" := by simpa using hn
      subst hname
      have h100 : entryPid "100.out" = some 100 := by decide
      rw [h100] at hp
      injection hp with he
      omega),
   fun h => by
      have hall := (C1_amended_audit_ok_iff "profile" 100 ["100.out", "150.out"]).mp h
      have h150 : entryPid "150.out" = some 150 := by decide
      have hle := hall "150.out" (by simp) 150 h150
      omega⟩

end Runner
